import Mathlib

/-!
Shallow embedding of `src/event_detector/event_visualizer.py` (class
`EventVisualizer`).  Frames are modelled as a record carrying the raster
dimensions together with the ordered list of OpenCV drawing operations
composited onto the raster; the in-place mutation of the Python code becomes
explicit state passing.  Python exceptions (`KeyError`, `ZeroDivisionError`)
become `Except String`.  Floating point quantities that the claims touch are
exact at every claimed input, so they are modelled over `ℚ`; Python `int()`
truncation toward zero is `pyInt`, Python `//` floor division is `Int.fdiv`.
The ambient nondeterminism (`cv2.getTickCount()`) and the external text
measurement (`cv2.getTextSize`) are threaded through an explicit `Env`.
-/

/-- A BGR colour triple as used by the OpenCV calls in the source. -/
abbrev Color := Int × Int × Int

/-- One OpenCV drawing operation composited onto the frame raster.
`bannerBand w h` stands for the filled black rectangle on the copied overlay
blended onto the frame with `cv2.addWeighted(overlay, 0.7, frame, 0.3, 0)`. -/
inductive DrawOp where
  | bannerBand (w h : Int)
  | text (s : String) (pos : Int × Int) (fontScale : ℚ) (color : Color) (thickness : Int)
  | arrowedLine (p q : Int × Int) (color : Color) (thickness : Int)
  | circle (center : Int × Int) (radius : Int) (color : Color) (thickness : Int)
  | line (p q : Int × Int) (color : Color) (thickness : Int)
deriving DecidableEq

/-- The mutable raster frame: `frame.shape[:2] = (height, width)` plus the
ordered list of drawing operations already composited onto it. -/
structure Frame where
  height : Int
  width : Int
  ops : List DrawOp
deriving DecidableEq

/-- Ambient environment of a render call: `textSize` models
`cv2.getTextSize(text, font, scale, thickness)[0]` (a pure library function,
identical between calls) and `sinTick` models the wall-clock-dependent value
`np.sin(cv2.getTickCount() * 0.0001)` sampled during the call. -/
structure Env where
  textSize : String → Int × Int
  sinTick : ℚ

/-- Modelled from the spec: a TrackTable record with at least a 2D `position`
(the tracking subsystem's per-player record; its class is not under `src/`). -/
structure PlayerRec where
  position : ℚ × ℚ
deriving DecidableEq

/-- Modelled from the spec: `tracks["players"]` — frame index → (player id →
record), with absent keys modelled as `none` (a Python `KeyError`). -/
structure Tracks where
  players : Int → Option (Int → Option PlayerRec)

/-- The double dictionary access `tracks["players"][f][pid]`: either of the
two lookups can raise `KeyError`. -/
def lookupPlayer (tracks : Tracks) (f pid : Int) : Except String PlayerRec :=
  match tracks.players f with
  | none => Except.error "KeyError: frame"
  | some m =>
    match m pid with
    | none => Except.error "KeyError: player"
    | some r => Except.ok r

/-- Modelled from the spec: a PassEvent record (`.events` is not under
`src/`): inclusive window `start_frame ≤ end_frame`, a passer, a nullable
receiver, and a precomputed `description`. -/
structure PassEvent where
  start_frame : Int
  end_frame : Int
  passer_id : Int
  receiver_id : Option Int
  description : String
deriving DecidableEq

/-- Modelled from the spec: a PressureEvent record (`.events` is not under
`src/`), with `pressure_intensity ∈ [0,1]`. -/
structure PressureEvent where
  start_frame : Int
  end_frame : Int
  pressuring_player_id : Int
  pressured_player_id : Int
  pressure_intensity : ℚ
  description : String
deriving DecidableEq

/-- Modelled from the spec: a PossessionChangeEvent record (`.events` is not
under `src/`). -/
structure PossessionChangeEvent where
  start_frame : Int
  end_frame : Int
  previous_team : Int
  new_team : Int
  description : String
deriving DecidableEq

/-- The closed union of event variants dispatched on by `isinstance` checks. -/
inductive Event where
  | pass (e : PassEvent)
  | pressure (e : PressureEvent)
  | possession (e : PossessionChangeEvent)
deriving DecidableEq

/-- `isinstance(event, PassEvent)` as a partial projection. -/
def toPass : Event → Option PassEvent
  | Event.pass e => some e
  | _ => none

/-- Python `int()` applied to an exact rational: truncation toward zero. -/
def pyInt (q : ℚ) : Int := q.num.tdiv (q.den : Int)

/-- `tuple(map(int, position))`. -/
def pyIntPair (p : ℚ × ℚ) : Int × Int := (pyInt p.1, pyInt p.2)

/-- Python `str()` of a possibly-`None` identifier, as interpolated by the
f-strings of the source. -/
def pyRepr : Option Int → String
  | none => "None"
  | some n => toString n

/-- `self.banner_height`. -/
def banner_height : Int := 120

/-- `self.banner_font = cv2.FONT_HERSHEY_DUPLEX`. -/
def banner_font : Int := 2

/-- `self.banner_font_scale`. -/
def banner_font_scale : ℚ := 3 / 2

/-- `self.banner_thickness`. -/
def banner_thickness : Int := 3

/-- `self.arrow_thickness`. -/
def arrow_thickness : Int := 3

/-- The drawing operations appended by one `draw_event_banner` call: the
blended band, then the black outline text (thickness + 2), then the coloured
fill text, centred with `//` floor division from the measured text extents. -/
def bannerOps (env : Env) (w : Int) (text : String) (color : Color) : List DrawOp :=
  let ts := env.textSize text
  let text_x := Int.fdiv (w - ts.1) 2
  let text_y := Int.fdiv (banner_height + ts.2) 2
  [DrawOp.bannerBand w banner_height,
   DrawOp.text text (text_x, text_y) banner_font_scale (0, 0, 0) (banner_thickness + 2),
   DrawOp.text text (text_x, text_y) banner_font_scale color banner_thickness]

/-- `EventVisualizer.draw_event_banner`: mutates the frame in place and
returns it. -/
def draw_event_banner (env : Env) (frame : Frame) (text : String) (color : Color) : Frame :=
  { frame with ops := frame.ops ++ bannerOps env frame.width text color }

/-- The banner text f-string of `draw_pass_event`. -/
def pass_banner_text (e : PassEvent) : String :=
  "PASS IN PROGRESS: Player " ++ toString e.passer_id ++ " → Player " ++ pyRepr e.receiver_id

/-- `EventVisualizer.draw_pass_event`.  The passer lookup is unguarded; the
receiver guard is `event.receiver_id and event.receiver_id in
tracks["players"][event.end_frame]`, i.e. Python truthiness of the id
(so id `0` short-circuits like `None`) followed by a dict-membership test
whose frame access itself can raise `KeyError`.  The numpy `arrow_points` /
`rotation_matrix` block of the source is computed but never drawn (only
`cv2.arrowedLine` touches the frame), so it has no observable effect and is
not modelled.  The banner is drawn last, regardless of the arrow. -/
def draw_pass_event (env : Env) (frame : Frame) (e : PassEvent) (tracks : Tracks) :
    Except String Frame := do
  let passer ← lookupPlayer tracks e.start_frame e.passer_id
  let frame1 ←
    match e.receiver_id with
    | none => Except.ok frame
    | some rid =>
      if rid = 0 then Except.ok frame
      else
        match tracks.players e.end_frame with
        | none => Except.error "KeyError: frame"
        | some m =>
          match m rid with
          | none => Except.ok frame
          | some receiver =>
            Except.ok { frame with ops := frame.ops ++
              [DrawOp.arrowedLine (pyIntPair passer.position) (pyIntPair receiver.position)
                (0, 255, 0) arrow_thickness] }
  Except.ok (draw_event_banner env frame1 (pass_banner_text e) (0, 255, 0))

/-- `(0, int(255 * (1 - intensity)), int(255 * intensity))` — the BGR colour
of the pressure line. -/
def intensity_color (i : ℚ) : Color :=
  (0, pyInt (255 * (1 - i)), pyInt (255 * i))

/-- The banner text f-string of `draw_pressure_event`. -/
def pressure_banner_text (e : PressureEvent) : String :=
  "PRESSURE: Player " ++ toString e.pressuring_player_id ++ " on Player " ++
    toString e.pressured_player_id

/-- `EventVisualizer.draw_pressure_event`: both participant lookups are
unguarded (`pressured` first, then `pressuring`); then the pulsing circle
`int(40 + 10 * np.sin(cv2.getTickCount() * 0.0001))` around the pressured
player, the intensity-coloured line, and the red banner. -/
def draw_pressure_event (env : Env) (frame : Frame) (e : PressureEvent) (tracks : Tracks) :
    Except String Frame := do
  let pressured ← lookupPlayer tracks e.start_frame e.pressured_player_id
  let pressuring ← lookupPlayer tracks e.start_frame e.pressuring_player_id
  let start_pos := pyIntPair pressuring.position
  let end_pos := pyIntPair pressured.position
  let radius := pyInt (40 + 10 * env.sinTick)
  let frame1 := { frame with ops := frame.ops ++
    [DrawOp.circle end_pos radius (0, 0, 255) 2,
     DrawOp.line start_pos end_pos (intensity_color e.pressure_intensity) arrow_thickness] }
  Except.ok (draw_event_banner env frame1 (pressure_banner_text e) (0, 0, 255))

/-- `EventVisualizer.draw_possession_change`: banner only, orange. -/
def draw_possession_change (env : Env) (frame : Frame) (e : PossessionChangeEvent) : Frame :=
  draw_event_banner env frame
    ("POSSESSION CHANGE: Team " ++ toString e.previous_team ++ " → Team " ++
      toString e.new_team)
    (255, 165, 0)

/-- The list-comprehension prune of `draw_events`:
`[e for e in self.active_pass_events if e.end_frame >= frame_num]`. -/
def prune (active : List PassEvent) (frame_num : Int) : List PassEvent :=
  active.filter (fun e => e.end_frame ≥ frame_num)

/-- The full per-call update of `self.active_pass_events`: prune, then append
every `PassEvent` of the input list in order (no de-duplication).  This
mutation completes before any banner is drawn. -/
def activeStep (active : List PassEvent) (events : List Event) (frame_num : Int) :
    List PassEvent :=
  prune active frame_num ++ events.filterMap toPass

/-- `progress = (frame_num - start_frame) / (end_frame - start_frame)` as an
exact rational (the Python value is a float, exact at every claimed input). -/
def pass_progress (frame_num : Int) (e : PassEvent) : ℚ :=
  ((frame_num - e.start_frame : Int) : ℚ) / ((e.end_frame - e.start_frame : Int) : ℚ)

/-- One iteration of the pass-banner loop of `draw_events`: Python raises
`ZeroDivisionError` when `end_frame - start_frame = 0` (there is no
special case in the source); otherwise the banner is drawn exactly when
`0 <= progress <= 1`. -/
def pass_banner_step (env : Env) (frame_num : Int) (frame : Frame) (e : PassEvent) :
    Except String Frame :=
  if e.end_frame - e.start_frame = 0 then
    Except.error "ZeroDivisionError: division by zero"
  else
    let progress := pass_progress frame_num e
    if 0 ≤ progress ∧ progress ≤ 1 then
      Except.ok (draw_event_banner env frame e.description (0, 128, 0))
    else
      Except.ok frame

/-- The pass-banner loop of `draw_events` over the updated active list. -/
def passBannersPhase (env : Env) (frame_num : Int) (active : List PassEvent)
    (frame : Frame) : Except String Frame :=
  active.foldlM (pass_banner_step env frame_num) frame

/-- One iteration of the final loop of `draw_events`: a `PressureEvent` gets
only its description banner in `(255, 0, 0)`, a `PossessionChangeEvent` only
its description banner in `(0, 0, 255)`; a `PassEvent` is skipped.  The
geometry routines `draw_pressure_event` / `draw_possession_change` are never
invoked here. -/
def otherBannerStep (env : Env) (frame : Frame) (ev : Event) : Frame :=
  match ev with
  | Event.pressure e => draw_event_banner env frame e.description (255, 0, 0)
  | Event.possession e => draw_event_banner env frame e.description (0, 0, 255)
  | Event.pass _ => frame

/-- The final loop of `draw_events` over the input events list. -/
def eventsBannerPhase (env : Env) (frame : Frame) (events : List Event) : Frame :=
  events.foldl (otherBannerStep env) frame

/-- Result of one `draw_events` call: the returned frame and the state of
`self.active_pass_events` after the call. -/
structure RenderResult where
  frame : Frame
  active : List PassEvent
deriving DecidableEq

/-- `EventVisualizer.draw_events(frame, events, frame_num, tracks)`.  The
`tracks` parameter is received but never read by the driver.  Note: in the
Python source the `active_pass_events` mutation has already happened when the
banner loop raises `ZeroDivisionError`; the functional model returns the
whole-call `Except`, and state-transition claims are settled on `activeStep`,
which is the exact state update performed by the call. -/
def draw_events (env : Env) (frame : Frame) (events : List Event) (frame_num : Int)
    (tracks : Tracks) (active : List PassEvent) : Except String RenderResult := do
  let active1 := activeStep active events frame_num
  let frame1 ← passBannersPhase env frame_num active1 frame
  Except.ok { frame := eventsBannerPhase env frame1 events, active := active1 }

/-- One call of the renderer as seen by a driver trace: the events list it
passes and its frame index. -/
structure Call where
  events : List Event
  frame_num : Int
deriving DecidableEq

/-- The `active_pass_events` state transition performed by one call of a
trace. -/
def stepCall (a : List PassEvent) (c : Call) : List PassEvent :=
  activeStep a c.events c.frame_num

/-- The `active_pass_events` state after a sequence of `draw_events` calls on
a freshly constructed `EventVisualizer` (initial state `[]`). -/
def stateAfter (calls : List Call) : List PassEvent :=
  calls.foldl stepCall []

/-- Whether a drawing operation is geometry (line / circle / arrow) rather
than banner band or text. -/
def isGeometryOp : DrawOp → Bool
  | DrawOp.arrowedLine _ _ _ _ => true
  | DrawOp.circle _ _ _ _ => true
  | DrawOp.line _ _ _ _ => true
  | _ => false

/-- Whether an operation list contains any geometry operation. -/
def hasGeometryOps (ops : List DrawOp) : Bool :=
  ops.any isGeometryOp

/-- `Except.isOk` spelled locally. -/
def except_is_ok : Except ε α → Bool
  | Except.ok _ => true
  | Except.error _ => false

/-- A fixed text-measure environment for concrete evaluations. -/
def env0 : Env := { textSize := fun _ => (0, 0), sinTick := 0 }

/-- A 1280x720 frame with nothing composited yet. -/
def frame0 : Frame := { height := 720, width := 1280, ops := [] }

/-- A track table with no frames at all. -/
def tracks0 : Tracks := { players := fun _ => none }

/-- The degenerate-window pass event of the failing input: a single-frame
window. -/
def e55 : PassEvent :=
  { start_frame := 5, end_frame := 5, passer_id := 9, receiver_id := none,
    description := "degenerate pass" }

/-- A pass event whose window is `[10, 20]`. -/
def e1020 : PassEvent :=
  { start_frame := 10, end_frame := 20, passer_id := 1, receiver_id := none,
    description := "window pass" }

/-- An already-expired pass event (window `[0, 5]`). -/
def eExpired : PassEvent :=
  { start_frame := 0, end_frame := 5, passer_id := 4, receiver_id := none,
    description := "expired pass" }

/-- A pressure event between players 1 and 2 with intensity `1/2`. -/
def pe1 : PressureEvent :=
  { start_frame := 7, end_frame := 9, pressuring_player_id := 1, pressured_player_id := 2,
    pressure_intensity := 1 / 2, description := "pressure banner" }

/-- The tracked record of player 1 in `tracks1`. -/
def rec1 : PlayerRec := { position := (100, 200) }

/-- The tracked record of player 2 in `tracks1`. -/
def rec2 : PlayerRec := { position := (300, 400) }

/-- A track table with players 1 and 2 present at every frame. -/
def tracks1 : Tracks :=
  { players := fun _ =>
      some (fun pid => if pid = 1 then some rec1 else if pid = 2 then some rec2 else none) }

/-- Reduction of an Except bind whose first component succeeded. -/
theorem bindE_ok {α β ε : Type} (a : α) (g : α → Except ε β) :
    (Except.ok a : Except ε α) >>= g = g a := rfl

/-- Reduction of an Except bind whose first component failed. -/
theorem bindE_error {α β ε : Type} (msg : ε) (g : α → Except ε β) :
    (Except.error msg : Except ε α) >>= g = Except.error msg := rfl

/-- `toPass` hits exactly the pass variant. -/
theorem toPass_eq_some {ev : Event} {e : PassEvent} :
    toPass ev = some e ↔ ev = Event.pass e := by
  cases ev <;> simp [toPass]

/-- Membership in the per-call active-set update: an event survives from the
previous state when its window has not been passed, or enters from the call's
events list. -/
theorem mem_activeStep {x : PassEvent} {a : List PassEvent} {evs : List Event} {f : Int} :
    x ∈ activeStep a evs f ↔ (x ∈ a ∧ f ≤ x.end_frame) ∨ Event.pass x ∈ evs := by
  simp [activeStep, prune, List.mem_filter, List.mem_filterMap, toPass_eq_some, ge_iff_le]

/-- An event already in the active set survives every later call whose frame
index has not passed its end frame. -/
theorem mem_foldl_stepCall (x : PassEvent) :
    ∀ (l : List Call) (a : List PassEvent), x ∈ a →
      (∀ c ∈ l, c.frame_num ≤ x.end_frame) → x ∈ l.foldl stepCall a := by
  intro l
  induction l with
  | nil => intro a ha _; simpa using ha
  | cons c cs ih =>
    intro a ha hall
    have hx : x ∈ stepCall a c :=
      mem_activeStep.mpr (Or.inl ⟨ha, hall c (by simp)⟩)
    exact ih _ hx (fun d hd => hall d (by simp [hd]))

/-- C1 (failing input for the claim): the source computes
`(frame_num - start_frame) / (end_frame - start_frame)` with no special case,
so a PassEvent with `start_frame = end_frame = frameIndex` makes `draw_events`
raise `ZeroDivisionError` instead of rendering the banner at 100% progress. -/
theorem C1_degenerate_window_raises :
    draw_events env0 frame0 [Event.pass e55] 5 tracks0 [] =
      Except.error "ZeroDivisionError: division by zero" := rfl

/-- C3: for an active PassEvent with `start_frame < end_frame`, the pass
banner loop computes `progress = (frameIndex - start) / (end - start)` and
draws the event's banner in green `(0, 128, 0)` exactly when that value lies
in `[0, 1]`; at `frameIndex = 15` on the window `[10, 20]` the progress is
exactly `1/2`. -/
theorem C3_progress_unit_interval (env : Env) (f : Int) (frame : Frame) (e : PassEvent)
    (h : e.start_frame < e.end_frame) :
    pass_banner_step env f frame e =
        Except.ok (if 0 ≤ pass_progress f e ∧ pass_progress f e ≤ 1 then
          draw_event_banner env frame e.description (0, 128, 0) else frame)
      ∧ (e.start_frame = 10 → e.end_frame = 20 → f = 15 → pass_progress f e = 1 / 2) := by
  constructor
  · simp only [pass_banner_step]
    rw [if_neg (by omega)]
    by_cases hp : 0 ≤ pass_progress f e ∧ pass_progress f e ≤ 1
    · rw [if_pos hp, if_pos hp]
    · rw [if_neg hp, if_neg hp]
  · intro h10 h20 hf
    rw [pass_progress, h10, h20, hf]
    norm_num

/-- C3 witness: the hypotheses hold at the concrete window `[10, 20]` and
frame index 15, where the progress evaluates to `1/2`. -/
theorem C3_progress_unit_interval_witness : pass_progress 15 e1020 = 1 / 2 :=
  (C3_progress_unit_interval env0 15 frame0 e1020 (by decide)).2 rfl rfl rfl

/-- C5: with both participants tracked, `draw_pressure_event` draws the
pressure line in the colour `(0, int(255 * (1 - intensity)),
int(255 * intensity))`, which is pure green (BGR `(0, 255, 0)`) at intensity
0, pure red (BGR `(0, 0, 255)`) at intensity 1, and the even blend
`(0, 127, 127)` at intensity `1/2`. -/
theorem C5_pressure_line_color (env : Env) (frame : Frame) (e : PressureEvent)
    (tracks : Tracks) (p q : PlayerRec)
    (hp : lookupPlayer tracks e.start_frame e.pressured_player_id = Except.ok p)
    (hq : lookupPlayer tracks e.start_frame e.pressuring_player_id = Except.ok q) :
    draw_pressure_event env frame e tracks =
        Except.ok (draw_event_banner env
          { frame with ops := frame.ops ++
            [DrawOp.circle (pyIntPair p.position) (pyInt (40 + 10 * env.sinTick)) (0, 0, 255) 2,
             DrawOp.line (pyIntPair q.position) (pyIntPair p.position)
               (intensity_color e.pressure_intensity) arrow_thickness] }
          (pressure_banner_text e) (0, 0, 255))
      ∧ intensity_color 0 = (0, 255, 0)
      ∧ intensity_color 1 = (0, 0, 255)
      ∧ intensity_color (1 / 2) = (0, 127, 127) := by
  refine ⟨?_, ?_, ?_, ?_⟩
  · simp only [draw_pressure_event, hp, hq, bindE_ok]
  · with_unfolding_all rfl
  · with_unfolding_all rfl
  · with_unfolding_all rfl

/-- C5 witness: concrete tracked players 1 (pressuring) and 2 (pressured)
with intensity `1/2`. -/
theorem C5_pressure_line_color_witness :
    draw_pressure_event env0 frame0 pe1 tracks1 =
      Except.ok (draw_event_banner env0
        { frame0 with ops := frame0.ops ++
          [DrawOp.circle (pyIntPair rec2.position) (pyInt (40 + 10 * env0.sinTick)) (0, 0, 255) 2,
           DrawOp.line (pyIntPair rec1.position) (pyIntPair rec2.position)
             (intensity_color pe1.pressure_intensity) arrow_thickness] }
        (pressure_banner_text pe1) (0, 0, 255)) :=
  (C5_pressure_line_color env0 frame0 pe1 tracks1 rec2 rec1 rfl rfl).1

/-- C10: the receiver guard tests Python truthiness of `receiver_id`, so a
receiver id of `0` is treated as unresolvable and no arrow is drawn even when
player 0 is tracked at `end_frame`; only the banner is drawn. -/
theorem C10_zero_receiver_no_arrow (env : Env) (frame : Frame) (e : PassEvent)
    (tracks : Tracks) (passer : PlayerRec) (m : Int → Option PlayerRec) (r : PlayerRec)
    (hp : lookupPlayer tracks e.start_frame e.passer_id = Except.ok passer)
    (h0 : e.receiver_id = some 0)
    (hm : tracks.players e.end_frame = some m)
    (hr : m 0 = some r) :
    draw_pass_event env frame e tracks =
      Except.ok (draw_event_banner env frame (pass_banner_text e) (0, 255, 0)) := by
  simp [draw_pass_event, hp, h0, bindE_ok]

/-- The tracked record of player 0 in `tracks3`. -/
def rec0 : PlayerRec := { position := (50, 60) }

/-- A track table with players 0 and 1 present at every frame. -/
def tracks3 : Tracks :=
  { players := fun _ =>
      some (fun pid => if pid = 0 then some rec0 else if pid = 1 then some rec1 else none) }

/-- A pass event from player 1 to the (tracked) player 0. -/
def ePass0 : PassEvent :=
  { start_frame := 3, end_frame := 8, passer_id := 1, receiver_id := some 0,
    description := "pass to zero" }

/-- C10 witness: player 0 has a position entry at the end frame, yet the call
produces only the banner. -/
theorem C10_zero_receiver_no_arrow_witness :
    draw_pass_event env0 frame0 ePass0 tracks3 =
      Except.ok (draw_event_banner env0 frame0 (pass_banner_text ePass0) (0, 255, 0)) :=
  C10_zero_receiver_no_arrow env0 frame0 ePass0 tracks3 rec1
    (fun pid => if pid = 0 then some rec0 else if pid = 1 then some rec1 else none) rec0
    rfl rfl rfl rfl

/-- C4: with the passer tracked, a `None` receiver id — or a receiver id with
no entry in the track table at `end_frame` — yields no arrow, only the green
banner `PASS IN PROGRESS: Player {passer} → Player {receiver}`; and every
successful call draws that banner last, whatever happened with the arrow. -/
theorem C4_missing_receiver (env : Env) (frame : Frame) (e : PassEvent) (tracks : Tracks)
    (passer : PlayerRec)
    (hp : lookupPlayer tracks e.start_frame e.passer_id = Except.ok passer) :
    (e.receiver_id = none →
        draw_pass_event env frame e tracks =
          Except.ok (draw_event_banner env frame (pass_banner_text e) (0, 255, 0)))
      ∧ (∀ (rid : Int) (m : Int → Option PlayerRec),
          e.receiver_id = some rid → tracks.players e.end_frame = some m → m rid = none →
          draw_pass_event env frame e tracks =
            Except.ok (draw_event_banner env frame (pass_banner_text e) (0, 255, 0)))
      ∧ (∀ res, draw_pass_event env frame e tracks = Except.ok res →
          ∃ fr, res = draw_event_banner env fr (pass_banner_text e) (0, 255, 0)) := by
  refine ⟨?_, ?_, ?_⟩
  · intro h0
    simp [draw_pass_event, hp, h0, bindE_ok]
  · intro rid m hrid hm hnone
    by_cases hz : rid = 0
    · subst hz
      simp [draw_pass_event, hp, hrid, bindE_ok]
    · simp [draw_pass_event, hp, hrid, hm, hnone, hz, bindE_ok]
  · intro res hres
    simp only [draw_pass_event, hp, bindE_ok, bindE_error] at hres
    split at hres
    · injection hres with h
      exact ⟨frame, h.symm⟩
    · split at hres
      · injection hres with h
        exact ⟨frame, h.symm⟩
      · split at hres
        · exact Except.noConfusion hres
        · split at hres
          · injection hres with h
            exact ⟨frame, h.symm⟩
          · injection hres with h
            exact ⟨_, h.symm⟩

/-- A pass event with no confirmed receiver. -/
def ePassN : PassEvent :=
  { start_frame := 7, end_frame := 9, passer_id := 1, receiver_id := none,
    description := "pass no receiver" }

/-- C4 witness: a tracked passer and a `None` receiver produce exactly the
banner-only frame. -/
theorem C4_missing_receiver_witness :
    draw_pass_event env0 frame0 ePassN tracks1 =
      Except.ok (draw_event_banner env0 frame0 (pass_banner_text ePassN) (0, 255, 0)) :=
  (C4_missing_receiver env0 frame0 ePassN tracks1 rec1 rfl).1 rfl

/-- C8: the passer lookup of `draw_pass_event` and both participant lookups
of `draw_pressure_event` have no defensive check — a failing lookup
propagates as the call's error — while the pass-receiver lookup alone is
guarded: a receiver absent from a present frame map still succeeds. -/
theorem C8_unguarded_lookups :
    (∀ (env : Env) (frame : Frame) (e : PassEvent) (tracks : Tracks) (msg : String),
        lookupPlayer tracks e.start_frame e.passer_id = Except.error msg →
        draw_pass_event env frame e tracks = Except.error msg)
      ∧ (∀ (env : Env) (frame : Frame) (e : PressureEvent) (tracks : Tracks) (msg : String),
        lookupPlayer tracks e.start_frame e.pressured_player_id = Except.error msg →
        draw_pressure_event env frame e tracks = Except.error msg)
      ∧ (∀ (env : Env) (frame : Frame) (e : PressureEvent) (tracks : Tracks) (p : PlayerRec)
          (msg : String),
        lookupPlayer tracks e.start_frame e.pressured_player_id = Except.ok p →
        lookupPlayer tracks e.start_frame e.pressuring_player_id = Except.error msg →
        draw_pressure_event env frame e tracks = Except.error msg)
      ∧ (∀ (env : Env) (frame : Frame) (e : PassEvent) (tracks : Tracks) (passer : PlayerRec)
          (rid : Int) (m : Int → Option PlayerRec),
        lookupPlayer tracks e.start_frame e.passer_id = Except.ok passer →
        e.receiver_id = some rid → tracks.players e.end_frame = some m → m rid = none →
        except_is_ok (draw_pass_event env frame e tracks) = true) := by
  refine ⟨?_, ?_, ?_, ?_⟩
  · intro env frame e tracks msg h
    simp [draw_pass_event, h, bindE_error]
  · intro env frame e tracks msg h
    simp [draw_pressure_event, h, bindE_error]
  · intro env frame e tracks p msg hp h
    simp [draw_pressure_event, hp, h, bindE_ok, bindE_error]
  · intro env frame e tracks passer rid m hp hrid hm hnone
    by_cases hz : rid = 0
    · subst hz
      simp [draw_pass_event, hp, hrid, bindE_ok, except_is_ok]
    · simp [draw_pass_event, hp, hrid, hm, hnone, hz, bindE_ok, except_is_ok]

/-- A track table with only player 2 present at every frame. -/
def tracks4 : Tracks :=
  { players := fun _ => some (fun pid => if pid = 2 then some rec2 else none) }

/-- A pass event whose receiver id 3 has no entry in the track table. -/
def ePassR3 : PassEvent :=
  { start_frame := 7, end_frame := 9, passer_id := 1, receiver_id := some 3,
    description := "pass to untracked" }

/-- C8 witness: a missing passer frame, a missing pressured participant, a
missing pressuring participant, and a guarded missing receiver, each at a
concrete input. -/
theorem C8_unguarded_lookups_witness :
    draw_pass_event env0 frame0 ePassN tracks0 = Except.error "KeyError: frame"
      ∧ draw_pressure_event env0 frame0 pe1 tracks0 = Except.error "KeyError: frame"
      ∧ draw_pressure_event env0 frame0 pe1 tracks4 = Except.error "KeyError: player"
      ∧ except_is_ok (draw_pass_event env0 frame0 ePassR3 tracks1) = true :=
  ⟨C8_unguarded_lookups.1 env0 frame0 ePassN tracks0 "KeyError: frame" rfl,
   C8_unguarded_lookups.2.1 env0 frame0 pe1 tracks0 "KeyError: frame" rfl,
   C8_unguarded_lookups.2.2.1 env0 frame0 pe1 tracks4 rec2 "KeyError: player" rfl rfl,
   C8_unguarded_lookups.2.2.2 env0 frame0 ePassR3 tracks1 rec1 3
     (fun pid => if pid = 1 then some rec1 else if pid = 2 then some rec2 else none)
     rfl rfl rfl rfl⟩

/-- C7: every PassEvent of the input list is appended to the active set, in
input order and with no de-duplication — the post-call active set is exactly
the pruned previous set followed by the input's PassEvents, so each
occurrence (duplicates included) contributes one additional entry. -/
theorem C7_absorb_no_dedup :
    (∀ (active : List PassEvent) (events : List Event) (f : Int),
        activeStep active events f = prune active f ++ events.filterMap toPass)
      ∧ (∀ (env : Env) (frame : Frame) (events : List Event) (f : Int) (tracks : Tracks)
          (active : List PassEvent) (r : RenderResult),
        draw_events env frame events f tracks active = Except.ok r →
        r.active = prune active f ++ events.filterMap toPass)
      ∧ (∀ (x : PassEvent) (active : List PassEvent) (events : List Event) (f : Int),
        (activeStep active events f).count x =
          (prune active f).count x + (events.filterMap toPass).count x) := by
  refine ⟨fun _ _ _ => rfl, ?_, ?_⟩
  · intro env frame events f tracks active r h
    simp only [draw_events] at h
    cases hp : passBannersPhase env f (activeStep active events f) frame with
    | ok fr =>
      rw [hp, bindE_ok] at h
      injection h with h
      rw [← h]
      rfl
    | error msg =>
      rw [hp, bindE_error] at h
      exact Except.noConfusion h
  · intro x active events f
    simp [activeStep, List.count_append]

/-- A not-yet-started pass event (window `[11, 20]`), absorbed but not drawn
at frame 10. -/
def eLater : PassEvent :=
  { start_frame := 11, end_frame := 20, passer_id := 6, receiver_id := none,
    description := "later pass" }

/-- C7 witness: at frame 10 the expired event is pruned and the same new
PassEvent supplied twice is appended twice. -/
theorem C7_absorb_no_dedup_witness :
    RenderResult.active { frame := frame0, active := [eLater, eLater] } =
      prune [eExpired] 10 ++ [Event.pass eLater, Event.pass eLater].filterMap toPass :=
  C7_absorb_no_dedup.2.1 env0 frame0 [Event.pass eLater, Event.pass eLater] 10 tracks0
    [eExpired] { frame := frame0, active := [eLater, eLater] } (by with_unfolding_all rfl)

/-- C9: `draw_events` is deterministic — its output frame and resulting
active set do not depend on the wall-clock tick sample, only on the frame,
events, frame index, track table, prior active set and the (fixed) text
measurement function; two calls on identical inputs agree. -/
theorem C9_deterministic (env1 env2 : Env) (h : env1.textSize = env2.textSize)
    (frame : Frame) (events : List Event) (f : Int) (tracks : Tracks)
    (active : List PassEvent) :
    draw_events env1 frame events f tracks active =
      draw_events env2 frame events f tracks active := by
  obtain ⟨t1, s1⟩ := env1
  obtain ⟨t2, s2⟩ := env2
  have ht : t1 = t2 := h
  subst ht
  rfl

/-- An environment agreeing with `env0` on text measurement but sampled at a
different wall-clock tick. -/
def env1 : Env := { textSize := fun _ => (0, 0), sinTick := 9 / 10 }

/-- C9 witness: two calls with different tick samples produce the same
output on a concrete input. -/
theorem C9_deterministic_witness :
    draw_events env0 frame0 [Event.pass e1020, Event.pressure pe1] 15 tracks1 [] =
      draw_events env1 frame0 [Event.pass e1020, Event.pressure pe1] 15 tracks1 [] :=
  C9_deterministic env0 env1 rfl frame0 [Event.pass e1020, Event.pressure pe1] 15 tracks1 []

/-- The banner operations that the final loop of `draw_events` contributes
for one input event: pressure and possession events get exactly their
description banner, pass events nothing. -/
def otherBannerOps (env : Env) (w : Int) : Event → List DrawOp
  | Event.pressure e => bannerOps env w e.description (255, 0, 0)
  | Event.possession e => bannerOps env w e.description (0, 0, 255)
  | Event.pass _ => []

/-- C6 counterexample: a call whose events list holds one PressureEvent
composites exactly the three banner operations and no line, circle or arrow —
the driver never invokes the geometry-drawing routines. -/
theorem C6_counterexample :
    Except.map (fun r => hasGeometryOps r.frame.ops)
        (draw_events env0 frame0 [Event.pressure pe1] 7 tracks1 []) = Except.ok false
      ∧ Except.map (fun r => r.frame.ops.length)
        (draw_events env0 frame0 [Event.pressure pe1] 7 tracks1 []) = Except.ok 3 :=
  ⟨rfl, rfl⟩

/-- C6 (amended): for each PressureEvent or PossessionChangeEvent in the
input events list, `draw_events` unconditionally draws only that event's
description banner (red `(255, 0, 0)` for pressure, `(0, 0, 255)` for
possession), independent of the active-set/progress mechanism; no geometry
operation is contributed by this phase. -/
theorem C6_banner_only :
    (∀ (env : Env) (frame : Frame) (events : List Event) (f : Int) (tracks : Tracks)
        (active : List PassEvent),
      draw_events env frame events f tracks active =
        Except.map
          (fun fr => { frame := eventsBannerPhase env fr events,
                       active := activeStep active events f })
          (passBannersPhase env f (activeStep active events f) frame))
      ∧ (∀ (env : Env) (frame : Frame) (events : List Event),
        eventsBannerPhase env frame events =
          { frame with
            ops := frame.ops ++ (events.map (otherBannerOps env frame.width)).flatten })
      ∧ (∀ (env : Env) (w : Int) (text : String) (color : Color),
        hasGeometryOps (bannerOps env w text color) = false) := by
  refine ⟨?_, ?_, ?_⟩
  · intro env frame events f tracks active
    simp only [draw_events]
    cases hp : passBannersPhase env f (activeStep active events f) frame with
    | ok fr => rfl
    | error msg => rfl
  · intro env frame events
    induction events generalizing frame with
    | nil => simp [eventsBannerPhase]
    | cons ev evs ih =>
      have hstep : otherBannerStep env frame ev =
          { frame with ops := frame.ops ++ otherBannerOps env frame.width ev } := by
        cases ev <;> simp [otherBannerStep, otherBannerOps, draw_event_banner]
      have hphase : eventsBannerPhase env frame (ev :: evs) =
          eventsBannerPhase env (otherBannerStep env frame ev) evs := rfl
      rw [hphase, ih, hstep]
      simp [List.append_assoc]
  · intro env w text color
    rfl

/-- C2 counterexample: an already-expired PassEvent supplied in the events
list of a call is appended after pruning, so after that call the active set
holds a member whose `end_frame` is below the call's frame index — the
claimed invariant fails as stated. -/
theorem C2_counterexample :
    draw_events env0 frame0 [Event.pass eExpired] 10 tracks0 [] =
        Except.ok { frame := frame0, active := [eExpired] }
      ∧ eExpired.end_frame < 10 := by
  constructor
  · with_unfolding_all rfl
  · decide

/-- C2 (amended): a PassEvent with window `[10, 20]` supplied in the events
list of a call with frame index 10 is in the active set after that call and
after every later call of a non-decreasing trace whose frame index is at
most 20; it is never in the active set after any call with frame index above
20 that does not re-supply it; and after any call every member either has
`end_frame ≥` the call's frame index or was newly absorbed from that call's
events list (pruning happens before absorption, so supplied events are not
filtered against the current frame). -/
theorem C2_active_window (e : PassEvent) (h10 : e.start_frame = 10)
    (h20 : e.end_frame = 20) :
    (∀ (cs1 : List Call) (c : Call), Event.pass e ∈ c.events →
        e ∈ stateAfter (cs1 ++ [c]))
      ∧ (∀ (cs1 l : List Call) (c cf : Call),
        ((cs1 ++ c :: l ++ [cf]).map Call.frame_num).Pairwise (· ≤ ·) →
        Event.pass e ∈ c.events → cf.frame_num ≤ 20 →
        e ∈ stateAfter (cs1 ++ c :: l ++ [cf]))
      ∧ (∀ (a : List PassEvent) (evs : List Event) (f : Int),
        20 < f → Event.pass e ∉ evs → e ∉ activeStep a evs f)
      ∧ (∀ (a : List PassEvent) (evs : List Event) (f : Int) (x : PassEvent),
        x ∈ activeStep a evs f → f ≤ x.end_frame ∨ Event.pass x ∈ evs) := by
  refine ⟨?_, ?_, ?_, ?_⟩
  · intro cs1 c hc
    rw [stateAfter, List.foldl_append]
    exact mem_activeStep.mpr (Or.inr hc)
  · intro cs1 l c cf hsorted hc hcf
    have hall : ∀ d ∈ l ++ [cf], d.frame_num ≤ e.end_frame := by
      have hsub : List.Sublist (c :: l ++ [cf]) (cs1 ++ c :: l ++ [cf]) := by
        have h := List.sublist_append_right cs1 (c :: l ++ [cf])
        simpa using h
      have hp1 : ((c :: l ++ [cf]).map Call.frame_num).Pairwise (· ≤ ·) := by
        refine List.Pairwise.sublist ?_ hsorted
        have h := List.Sublist.map Call.frame_num hsub
        simpa using h
      have hp2 : ((l ++ [cf]).map Call.frame_num).Pairwise (· ≤ ·) :=
        (List.pairwise_cons.mp (by simpa using hp1)).2
      intro d hd
      rcases List.mem_append.mp hd with hdl | hdf
      · have hcross := (List.pairwise_append.mp (by simpa using hp2)).2.2
        have : d.frame_num ≤ cf.frame_num :=
          hcross d.frame_num (List.mem_map_of_mem Call.frame_num hdl)
            cf.frame_num (by simp)
        omega
      · have hde : d = cf := by simpa using hdf
        subst hde
        omega
    have hmem : e ∈ stepCall (stateAfter cs1) c := mem_activeStep.mpr (Or.inr hc)
    have : stateAfter (cs1 ++ c :: l ++ [cf]) =
        (l ++ [cf]).foldl stepCall (stepCall (stateAfter cs1) c) := by
      rw [stateAfter, stateAfter]
      rw [show cs1 ++ c :: l ++ [cf] = cs1 ++ c :: (l ++ [cf]) by simp]
      rw [List.foldl_append]
      rfl
    rw [this]
    exact mem_foldl_stepCall e (l ++ [cf]) _ hmem hall
  · intro a evs f hf hnot hmem
    rcases mem_activeStep.mp hmem with ⟨_, hle⟩ | hin
    · omega
    · exact hnot hin
  · intro a evs f x hx
    rcases mem_activeStep.mp hx with ⟨_, hle⟩ | hin
    · exact Or.inl hle
    · exact Or.inr hin

/-- The trace call supplying `e1020` at frame 10. -/
def c10 : Call := { events := [Event.pass e1020], frame_num := 10 }

/-- A trace call with no events at frame 15. -/
def c15 : Call := { events := [], frame_num := 15 }

/-- A trace call with no events at frame 20. -/
def c20 : Call := { events := [], frame_num := 20 }

/-- C2 witness: the window event is active after its supplying call and
through frame 20, and is pruned by a call at frame 21. -/
theorem C2_active_window_witness :
    e1020 ∈ stateAfter [c10]
      ∧ e1020 ∈ stateAfter [c10, c15, c20]
      ∧ e1020 ∉ activeStep [e1020] [] 21 := by
  refine ⟨?_, ?_, ?_⟩
  · exact (C2_active_window e1020 rfl rfl).1 [] c10 (by simp [c10])
  · exact (C2_active_window e1020 rfl rfl).2.1 [] [c15] c10 c20
      (by simp [c10, c15, c20, List.pairwise_cons])
      (by simp [c10]) (by decide)
  · exact (C2_active_window e1020 rfl rfl).2.2.1 [e1020] [] 21 (by decide) (by simp)
